import Mathlib

/-!
Verification of the StraySafe backend (a JSON-file backed CRUD service for
stray-animal reports). The repository contains two near-duplicate variants of
the same Express server:

* `src/server/server.js` — modelled here with the `Server` suffix;
* the server embedded in `src/unnamed/part_000` — modelled with the `Part` suffix.

Records are shallowly embedded as Lean structures. Timestamps (ISO strings
produced by new Date in the source) are modelled as natural numbers; each
handler receives the clock value `now` as a parameter, standing for the time at
which the handler body runs. Generated UUIDs are modelled by a `freshId`
parameter. The persisted JSON file is modelled as the list of records passed in
and returned by each handler, and each handler returns its HTTP response
together with the resulting persisted collection.
-/

namespace StraySafe

/-! ## String helpers -/

/-- Boolean test that the second list is an initial segment of the first. -/
def beginsWith : List Char → List Char → Bool
  | _, [] => true
  | [], _ :: _ => false
  | c :: cs, d :: ds => c == d && beginsWith cs ds

/-- Boolean test that `needle` occurs contiguously inside the second list. -/
def hasSub (needle : List Char) : List Char → Bool
  | [] => beginsWith [] needle
  | c :: t => beginsWith (c :: t) needle || hasSub needle t

/-- Case-insensitive substring containment, the model of the JavaScript idiom
hay.toLowerCase().includes(term.toLowerCase()). -/
def includesCI (hay term : String) : Bool :=
  hasSub (term.data.map Char.toLower) (hay.data.map Char.toLower)

/-- Split a character list at every occurrence of the separator. -/
def splitOnChar (sep : Char) : List Char → List (List Char)
  | [] => [[]]
  | c :: t =>
    match splitOnChar sep t with
    | [] => [[]]
    | h :: r => if c == sep then [] :: h :: r else (c :: h) :: r

/-- Remove leading and trailing whitespace, the model of the trim sanitizer. -/
def trimChars (cs : List Char) : List Char :=
  ((cs.dropWhile Char.isWhitespace).reverse.dropWhile Char.isWhitespace).reverse

/-! ## Data model

Two record shapes, one per server variant. In `server.js` the created record
carries both `dateReported` and `lastUpdated`; in the `part_000` variant the
creation handler stores no `lastUpdated` field at all (it is first written by
an update), which we model with an `Option Nat`. -/

/-- Record shape written by `src/server/server.js`. -/
structure Animal where
  id : String
  type : String
  status : String
  location : String
  description : String
  breed : String
  color : String
  size : String
  age : String
  contactName : String
  contactPhone : String
  contactEmail : String
  image : Option String
  dateReported : Nat
  lastUpdated : Option Nat
  deriving Repr, DecidableEq

/-- Record shape written by the server in `src/unnamed/part_000`. -/
structure AnimalP where
  id : String
  type : String
  breed : String
  color : String
  size : String
  location : String
  description : String
  contactName : String
  contactPhone : String
  contactEmail : String
  status : String
  dateReported : Nat
  photo : Option String
  lastUpdated : Option Nat
  deriving Repr, DecidableEq

/-- Request body for POST and PUT: every field the client may send, each
optional because a JSON body can omit any of them. The `id` field models a
client attempt to choose the record id; no handler ever reads it. -/
structure Body where
  id : Option String
  type : Option String
  status : Option String
  location : Option String
  description : Option String
  breed : Option String
  color : Option String
  size : Option String
  age : Option String
  contactName : Option String
  contactPhone : Option String
  contactEmail : Option String
  deriving Repr, DecidableEq

/-- Body with every field absent. -/
def emptyBody : Body :=
  { id := none, type := none, status := none, location := none
    description := none, breed := none, color := none, size := none
    age := none, contactName := none, contactPhone := none, contactEmail := none }

/-- One collected validation failure, as produced by validationResult:
the offending field and its message. -/
structure FieldError where
  field : String
  msg : String
  deriving Repr, DecidableEq

/-! ## Record store -/

/-- State of the persisted JSON document backing the store: absent (first
run), present but unreadable or unparsable, or readable with contents. -/
inductive StorageState (α : Type) where
  | missing
  | corrupt
  | valid (records : α)
  deriving Repr, DecidableEq

/-- Modelled from the spec: the failure the Record Store contract says an
unreadable or corrupt persisted state signals to the caller. -/
inductive StorageError where
  | unreadable
  deriving Repr, DecidableEq

/-- Model of readData in `src/server/server.js` (lines 74 to 82): a missing
file makes readFile throw, a corrupt file makes JSON.parse throw, and the
catch block turns either failure into an empty array. -/
def readDataServer : StorageState (List Animal) → List Animal
  | .missing => []
  | .corrupt => []
  | .valid records => records

/-- Model of readData in `src/unnamed/part_000` (lines 165 to 176): a missing
file returns an empty array via the existsSync guard, and a parse failure is
caught and also returns an empty array. -/
def readDataPart : StorageState (List AnimalP) → List AnimalP
  | .missing => []
  | .corrupt => []
  | .valid records => records

/-- Modelled from the spec: the loadAll contract of section 4.1, which returns
the collection, returns an empty sequence for a missing store, and signals a
StorageError for unreadable or corrupt storage. -/
def loadAllSpec : StorageState (List α) → Except StorageError (List α)
  | .missing => .ok []
  | .corrupt => .error .unreadable
  | .valid records => .ok records

/-! ## Validation -/

/-- Membership of a present value in an allowed list; an absent field fails,
as isIn does on undefined. -/
def isInOpt (allowed : List String) : Option String → Bool
  | none => false
  | some v => allowed.contains v

/-- Model of the notEmpty rule: fails on an absent field and on the empty
string. -/
def presentNonempty : Option String → Bool
  | none => false
  | some v => v != ""

/-- Apply a check to a present value; an absent field fails. -/
def checkOpt (f : String → Bool) : Option String → Bool
  | none => false
  | some v => f v

/-- Modelled from the spec: email must be syntactically valid. The isEmail
check of the external validator library is abstracted to a representative
decidable check: one at sign, nonempty name part, and a domain containing a
dot. -/
def isEmailModel (s : String) : Bool :=
  match splitOnChar '@' s.data with
  | [name, dom] => !name.isEmpty && !dom.isEmpty && dom.contains '.'
  | _ => false

/-- Modelled from the spec: phone must match a basic character-class pattern.
The isMobilePhone check of the external validator library is abstracted to an
optional leading plus followed by 7 to 15 digits. -/
def isMobilePhoneModel (s : String) : Bool :=
  let digits := match s.data with
    | '+' :: rest => rest
    | cs => cs
  !digits.isEmpty && decide (7 ≤ digits.length) && decide (digits.length ≤ 15)
    && digits.all (fun c => c.isDigit)

/-- Character class of the part_000 phone pattern: digits, space, dash, plus
and parentheses. -/
def phoneCharOk (c : Char) : Bool :=
  c.isDigit || c == ' ' || c == '-' || c == '+' || c == '(' || c == ')'

/-- Model of the part_000 regex for contactPhone: one or more characters, all
from the allowed class. -/
def matchesPhoneClass (cs : List Char) : Bool :=
  !cs.isEmpty && cs.all phoneCharOk

/-- Length of the trimmed value lies in the closed interval. -/
def lenBetween (lo hi : Nat) (s : String) : Bool :=
  decide (lo ≤ (trimChars s.data).length) && decide ((trimChars s.data).length ≤ hi)

/-- Model of validateAnimalReport in `src/server/server.js` (lines 94 to 102):
every rule runs and the violations are concatenated in rule order, exactly as
validationResult collects them. -/
def validateServer (b : Body) : List FieldError :=
  (if isInOpt ["dog", "cat", "other"] b.type then []
    else [⟨"type", "Type must be dog, cat, or other"⟩])
  ++ (if isInOpt ["found", "lost", "rescued"] b.status then []
    else [⟨"status", "Status must be found, lost, or rescued"⟩])
  ++ (if presentNonempty b.location then [] else [⟨"location", "Location is required"⟩])
  ++ (if presentNonempty b.description then [] else [⟨"description", "Description is required"⟩])
  ++ (if presentNonempty b.contactName then [] else [⟨"contactName", "Contact name is required"⟩])
  ++ (if checkOpt isMobilePhoneModel b.contactPhone then []
    else [⟨"contactPhone", "Valid phone number is required"⟩])
  ++ (if checkOpt isEmailModel b.contactEmail then []
    else [⟨"contactEmail", "Valid email is required"⟩])

/-- Model of animalValidation in `src/unnamed/part_000` (lines 190 to 201).
Rules marked optional in the source skip absent fields; the others fail them. -/
def validatePart (b : Body) : List FieldError :=
  (if isInOpt ["dog", "cat", "other"] b.type then []
    else [⟨"type", "Type must be dog, cat, or other"⟩])
  ++ (match b.breed with
    | none => []
    | some v => if lenBetween 1 100 v then [] else [⟨"breed", "Invalid value"⟩])
  ++ (if checkOpt (lenBetween 1 50) b.color then [] else [⟨"color", "Invalid value"⟩])
  ++ (if isInOpt ["small", "medium", "large"] b.size then []
    else [⟨"size", "Size must be small, medium, or large"⟩])
  ++ (if checkOpt (lenBetween 1 200) b.location then [] else [⟨"location", "Invalid value"⟩])
  ++ (match b.description with
    | none => []
    | some v => if decide ((trimChars v.data).length ≤ 1000) then []
      else [⟨"description", "Invalid value"⟩])
  ++ (if checkOpt (lenBetween 1 100) b.contactName then []
    else [⟨"contactName", "Invalid value"⟩])
  ++ (if checkOpt (fun v => matchesPhoneClass (trimChars v.data)) b.contactPhone then []
    else [⟨"contactPhone", "Invalid phone number"⟩])
  ++ (if checkOpt isEmailModel b.contactEmail then []
    else [⟨"contactEmail", "Invalid email address"⟩])
  ++ (match b.status with
    | none => []
    | some v => if ["found", "lost", "adopted", "reunited"].contains v then []
      else [⟨"status", "Invalid status"⟩])

/-! ## Handlers -/

/-- Model of the JavaScript default idiom value or fallback, which substitutes
the fallback both for an absent field and for the empty string (both falsy). -/
def orDefault (d : String) : Option String → String
  | none => d
  | some s => if s = "" then d else s

/-- Success response of the create endpoint or the collected validation
failures. -/
inductive PostResp (α : Type) where
  | created (a : α)
  | validationFailed (errs : List FieldError)
  deriving Repr, DecidableEq

/-- HTTP status code of a create response. -/
def PostResp.statusCode : PostResp α → Nat
  | .created _ => 201
  | .validationFailed _ => 400

/-- Responses of the update endpoint. -/
inductive PutResp (α : Type) where
  | updated (a : α)
  | validationFailed (errs : List FieldError)
  | notFound
  deriving Repr, DecidableEq

/-- HTTP status code of an update response. -/
def PutResp.statusCode : PutResp α → Nat
  | .updated _ => 200
  | .validationFailed _ => 400
  | .notFound => 404

/-- Record built by the POST handler of `src/server/server.js` (lines 187 to
203). Fields read directly from the body are totalized with the empty string;
validation has already ruled out their absence on the path where this record
is built. Both timestamp fields are computed during the same handler run,
modelled by the single clock value `now`. -/
def mkAnimalServer (b : Body) (file : Option String) (freshId : String) (now : Nat) : Animal :=
  { id := freshId
    type := b.type.getD ""
    status := b.status.getD ""
    location := b.location.getD ""
    description := b.description.getD ""
    breed := orDefault "" b.breed
    color := orDefault "" b.color
    size := orDefault "" b.size
    age := orDefault "" b.age
    contactName := b.contactName.getD ""
    contactPhone := b.contactPhone.getD ""
    contactEmail := b.contactEmail.getD ""
    image := file.map (fun f => "/uploads/" ++ f)
    dateReported := now
    lastUpdated := some now }

/-- Model of the POST handler of `src/server/server.js` (lines 174 to 220):
on validation failure respond 400 with every collected error and leave the
store untouched; otherwise append the new record and persist. -/
def postServer (b : Body) (file : Option String) (freshId : String) (now : Nat)
    (store : List Animal) : PostResp Animal × List Animal :=
  let errs := validateServer b
  if errs.isEmpty then
    let a := mkAnimalServer b file freshId now
    (.created a, store ++ [a])
  else
    (.validationFailed errs, store)

/-- Record built by the POST handler of `src/unnamed/part_000` (lines 300 to
314). The source stores no lastUpdated field at creation, hence `none`. -/
def mkAnimalPart (b : Body) (file : Option String) (freshId : String) (now : Nat) : AnimalP :=
  { id := freshId
    type := b.type.getD ""
    breed := orDefault "" b.breed
    color := b.color.getD ""
    size := b.size.getD ""
    location := b.location.getD ""
    description := orDefault "" b.description
    contactName := b.contactName.getD ""
    contactPhone := b.contactPhone.getD ""
    contactEmail := b.contactEmail.getD ""
    status := orDefault "found" b.status
    dateReported := now
    photo := file.map (fun f => "/uploads/" ++ f)
    lastUpdated := none }

/-- Model of the POST handler of `src/unnamed/part_000` (lines 286 to 337),
on the path where writeData succeeds. -/
def postPart (b : Body) (file : Option String) (freshId : String) (now : Nat)
    (store : List AnimalP) : PostResp AnimalP × List AnimalP :=
  let errs := validatePart b
  if errs.isEmpty then
    let a := mkAnimalPart b file freshId now
    (.created a, store ++ [a])
  else
    (.validationFailed errs, store)

/-- Replace the first element satisfying `hit` by its image under `g`,
returning the new element and the new list; `none` when nothing matches. This
is the model of findIndex followed by assignment at that index. -/
def updateFirst (hit : α → Bool) (g : α → α) : List α → Option (α × List α)
  | [] => none
  | a :: as =>
    if hit a then some (g a, g a :: as)
    else
      match updateFirst hit g as with
      | none => none
      | some (r, rest) => some (r, a :: rest)

/-- Record rewrite performed by the PUT handler of `src/server/server.js`
(lines 244 to 262): spread of the old record, every mutable field replaced
from the body, lastUpdated refreshed, and the image replaced only when an
upload accompanied the request. -/
def updateAnimalServer (old : Animal) (b : Body) (file : Option String) (now : Nat) : Animal :=
  { old with
    type := b.type.getD ""
    status := b.status.getD ""
    location := b.location.getD ""
    description := b.description.getD ""
    breed := orDefault "" b.breed
    color := orDefault "" b.color
    size := orDefault "" b.size
    age := orDefault "" b.age
    contactName := b.contactName.getD ""
    contactPhone := b.contactPhone.getD ""
    contactEmail := b.contactEmail.getD ""
    lastUpdated := some now
    image := match file with
      | some f => some ("/uploads/" ++ f)
      | none => old.image }

/-- Model of the PUT handler of `src/server/server.js` (lines 223 to 279):
validation first, then lookup by id, then in-place replacement and persist. -/
def putServer (targetId : String) (b : Body) (file : Option String) (now : Nat)
    (store : List Animal) : PutResp Animal × List Animal :=
  let errs := validateServer b
  if errs.isEmpty then
    match updateFirst (fun a => a.id == targetId)
        (fun old => updateAnimalServer old b file now) store with
    | none => (.notFound, store)
    | some (r, store2) => (.updated r, store2)
  else
    (.validationFailed errs, store)

/-- Record rewrite performed by the PUT handler of `src/unnamed/part_000`
(lines 361 to 379); status falls back to the old value when absent from the
body, and the photo is replaced only when an upload accompanied the request. -/
def updateAnimalPart (old : AnimalP) (b : Body) (file : Option String) (now : Nat) : AnimalP :=
  { old with
    type := b.type.getD ""
    breed := orDefault "" b.breed
    color := b.color.getD ""
    size := b.size.getD ""
    location := b.location.getD ""
    description := orDefault "" b.description
    contactName := b.contactName.getD ""
    contactPhone := b.contactPhone.getD ""
    contactEmail := b.contactEmail.getD ""
    status := orDefault old.status b.status
    lastUpdated := some now
    photo := match file with
      | some f => some ("/uploads/" ++ f)
      | none => old.photo }

/-- Model of the PUT handler of `src/unnamed/part_000` (lines 340 to 402), on
the path where writeData succeeds. -/
def putPart (targetId : String) (b : Body) (file : Option String) (now : Nat)
    (store : List AnimalP) : PutResp AnimalP × List AnimalP :=
  let errs := validatePart b
  if errs.isEmpty then
    match updateFirst (fun a => a.id == targetId)
        (fun old => updateAnimalPart old b file now) store with
    | none => (.notFound, store)
    | some (r, store2) => (.updated r, store2)
  else
    (.validationFailed errs, store)

/-! ## Listing and filtering -/

/-- Truthiness of a query parameter in the JavaScript guard if value: absent
and empty string are both falsy, so neither activates its filter stage. -/
def qActive : Option String → Bool
  | none => false
  | some v => v != ""

/-- Per-criterion predicate for the type filter stage: vacuously true when the
criterion is inactive. -/
def passType (t : Option String) (a : Animal) : Bool :=
  !qActive t || a.type == t.getD ""

/-- Per-criterion predicate for the status filter stage. -/
def passStatus (s : Option String) (a : Animal) : Bool :=
  !qActive s || a.status == s.getD ""

/-- Per-criterion predicate for the location filter stage. -/
def passLoc (l : Option String) (a : Animal) : Bool :=
  !qActive l || includesCI a.location (l.getD "")

/-- Type predicate for part_000 records. -/
def passTypeP (t : Option String) (a : AnimalP) : Bool :=
  !qActive t || a.type == t.getD ""

/-- Status predicate for part_000 records. -/
def passStatusP (s : Option String) (a : AnimalP) : Bool :=
  !qActive s || a.status == s.getD ""

/-- Location predicate for part_000 records. -/
def passLocP (l : Option String) (a : AnimalP) : Bool :=
  !qActive l || includesCI a.location (l.getD "")

/-- Sequential filter stages of the GET handler of `src/server/server.js`
(lines 112 to 131): each truthy query parameter narrows the list in turn. -/
def applyFiltersServer (t s l : Option String) (animals : List Animal) : List Animal :=
  let a1 := if qActive t then animals.filter (fun a => a.type == t.getD "") else animals
  let a2 := if qActive s then a1.filter (fun a => a.status == s.getD "") else a1
  let a3 := if qActive l then a2.filter (fun a => includesCI a.location (l.getD "")) else a2
  a3

/-- Search predicate of the GET handler of `src/unnamed/part_000` (lines 232
to 240): the term matches when any of breed, color, description or location
contains it case-insensitively. -/
def searchPred (term : String) (a : AnimalP) : Bool :=
  includesCI a.breed term || includesCI a.color term
    || includesCI a.description term || includesCI a.location term

/-- Sequential filter stages of the GET handler of `src/unnamed/part_000`
(lines 216 to 240), including the search stage. -/
def applyFiltersPart (t s l q : Option String) (animals : List AnimalP) : List AnimalP :=
  let a1 := if qActive t then animals.filter (fun a => a.type == t.getD "") else animals
  let a2 := if qActive s then a1.filter (fun a => a.status == s.getD "") else a1
  let a3 := if qActive l then a2.filter (fun a => includesCI a.location (l.getD "")) else a2
  let a4 := if qActive q then a3.filter (searchPred (q.getD "")) else a3
  a4

/-- Ordering relation used by the date comparator of both servers on part_000
records: the left record is at least as recent as the right one. -/
def newerFirstP (a b : AnimalP) : Prop :=
  b.dateReported ≤ a.dateReported

instance : DecidableRel newerFirstP :=
  fun a b => Nat.decLe b.dateReported a.dateReported

instance : IsTotal AnimalP newerFirstP :=
  ⟨fun a b => Nat.le_total b.dateReported a.dateReported⟩

instance : IsTrans AnimalP newerFirstP :=
  ⟨fun _ _ _ h1 h2 => Nat.le_trans h2 h1⟩

/-- Same ordering relation on server.js records. -/
def newerFirstS (a b : Animal) : Prop :=
  b.dateReported ≤ a.dateReported

instance : DecidableRel newerFirstS :=
  fun a b => Nat.decLe b.dateReported a.dateReported

instance : IsTotal Animal newerFirstS :=
  ⟨fun a b => Nat.le_total b.dateReported a.dateReported⟩

instance : IsTrans Animal newerFirstS :=
  ⟨fun _ _ _ h1 h2 => Nat.le_trans h2 h1⟩

/-- Descending sort by dateReported for part_000 records. The JavaScript sort
with the numeric comparator on dates is stable and orders newest first; it is
modelled by a stable sort under the newerFirstP relation. -/
def sortByDateDescP (animals : List AnimalP) : List AnimalP :=
  List.insertionSort newerFirstP animals

/-- Descending sort by dateReported for server.js records. -/
def sortByDateDescS (animals : List Animal) : List Animal :=
  List.insertionSort newerFirstS animals

/-- Full listing pipeline of GET api animals in `src/server/server.js` (lines
112 to 145): the filter stages only, with no sort stage in the source. -/
def listServer (t s l : Option String) (animals : List Animal) : List Animal :=
  applyFiltersServer t s l animals

/-- Full listing pipeline of GET api animals in `src/unnamed/part_000` (lines
211 to 249): filter stages followed by the descending sort by dateReported. -/
def listPart (t s l q : Option String) (animals : List AnimalP) : List AnimalP :=
  sortByDateDescP (applyFiltersPart t s l q animals)

/-! ## Statistics -/

/-- Stats payload of GET api stats in `src/server/server.js` (lines 286 to
301); the recent reports hold full records. -/
structure StatsServer where
  total : Nat
  dogCount : Nat
  catCount : Nat
  otherCount : Nat
  foundCount : Nat
  lostCount : Nat
  rescuedCount : Nat
  recentReports : List Animal
  deriving Repr, DecidableEq

/-- Model of the stats computation of `src/server/server.js` (lines 282 to
314): counts per enumeration value and the first five records of the
descending sort by dateReported, stored as full records. -/
def statsServer (animals : List Animal) : StatsServer :=
  { total := animals.length
    dogCount := (animals.filter (fun a => a.type == "dog")).length
    catCount := (animals.filter (fun a => a.type == "cat")).length
    otherCount := (animals.filter (fun a => a.type == "other")).length
    foundCount := (animals.filter (fun a => a.status == "found")).length
    lostCount := (animals.filter (fun a => a.status == "lost")).length
    rescuedCount := (animals.filter (fun a => a.status == "rescued")).length
    recentReports := (sortByDateDescS animals).take 5 }

/-- Reduced field set each recent report is projected to in
`src/unnamed/part_000` (lines 425 to 431). -/
structure RecentSummary where
  id : String
  type : String
  location : String
  dateReported : Nat
  status : String
  deriving Repr, DecidableEq

/-- Projection of a record to the reduced recent-report field set. -/
def projectRecent (a : AnimalP) : RecentSummary :=
  { id := a.id, type := a.type, location := a.location
    dateReported := a.dateReported, status := a.status }

/-- Stats payload of GET api stats in `src/unnamed/part_000` (lines 409 to
432); this variant enumerates four statuses and projects recent reports. -/
structure StatsPart where
  total : Nat
  dogCount : Nat
  catCount : Nat
  otherCount : Nat
  foundCount : Nat
  lostCount : Nat
  adoptedCount : Nat
  reunitedCount : Nat
  recentReports : List RecentSummary
  deriving Repr, DecidableEq

/-- Model of the stats computation of `src/unnamed/part_000` (lines 405 to
445). -/
def statsPart (animals : List AnimalP) : StatsPart :=
  { total := animals.length
    dogCount := (animals.filter (fun a => a.type == "dog")).length
    catCount := (animals.filter (fun a => a.type == "cat")).length
    otherCount := (animals.filter (fun a => a.type == "other")).length
    foundCount := (animals.filter (fun a => a.status == "found")).length
    lostCount := (animals.filter (fun a => a.status == "lost")).length
    adoptedCount := (animals.filter (fun a => a.status == "adopted")).length
    reunitedCount := (animals.filter (fun a => a.status == "reunited")).length
    recentReports := ((sortByDateDescP animals).take 5).map projectRecent }

/-! ## Sample data for concrete evaluations -/

/-- Request body that passes both validators. -/
def goodBody : Body :=
  { id := none
    type := some "dog"
    status := some "found"
    location := some "Park"
    description := some "dog"
    breed := some "Lab"
    color := some "brown"
    size := some "small"
    age := none
    contactName := some "Al"
    contactPhone := some "+1234567"
    contactEmail := some "a@b.c" }

/-- Concrete server.js record used in witnesses, reported at time 1. -/
def animalA : Animal :=
  { id := "a1", type := "dog", status := "found", location := "Park"
    description := "dog", breed := "Lab", color := "brown", size := "small"
    age := "2", contactName := "Al", contactPhone := "+1234567"
    contactEmail := "a@b.c", image := none, dateReported := 1, lastUpdated := some 1 }

/-- Concrete server.js record reported later, at time 2. -/
def animalB : Animal :=
  { animalA with id := "a2", dateReported := 2, lastUpdated := some 2 }

/-- Concrete part_000 record whose color contains brown case-insensitively. -/
def animalPBrown : AnimalP :=
  { id := "p1", type := "dog", breed := "Lab", color := "Brown", size := "small"
    location := "Park", description := "dog", contactName := "Al"
    contactPhone := "+1234567", contactEmail := "a@b.c", status := "found"
    dateReported := 1, photo := none, lastUpdated := none }

/-- Concrete part_000 record none of whose searched fields contains brown. -/
def animalPBlack : AnimalP :=
  { animalPBrown with id := "p2", color := "black", dateReported := 2 }

/-! ## Helper lemmas -/

/-- A guarded filter stage equals one filter with a vacuous-when-inactive
predicate. -/
theorem stageFilter (c : Bool) (p : α → Bool) (l : List α) :
    (if c then l.filter p else l) = l.filter (fun a => !c || p a) := by
  cases c <;> simp

/-- Composition of two filters is one filter by the conjunction. -/
theorem filterChain (p q : α → Bool) (l : List α) :
    (l.filter p).filter q = l.filter (fun a => p a && q a) := by
  induction l with
  | nil => rfl
  | cons a l ih =>
    by_cases hp : p a <;> by_cases hq : q a <;>
      simp [List.filter_cons, hp, hq, ih]

/-- The first-match replacement finds nothing exactly when no element
matches. -/
theorem updateFirst_eq_none {hit : α → Bool} {g : α → α} :
    ∀ {l : List α}, updateFirst hit g l = none ↔ ∀ x ∈ l, hit x = false := by
  intro l
  induction l with
  | nil => simp [updateFirst]
  | cons a l ih =>
    by_cases h : hit a
    · simp [updateFirst, h]
    · rw [Bool.not_eq_true] at h
      constructor
      · intro hnone x hx
        simp only [updateFirst, h, Bool.false_eq_true, if_false] at hnone
        rcases List.mem_cons.mp hx with rfl | hxl
        · exact h
        · rcases hu : updateFirst hit g l with _ | pr
          · exact ih.mp hu x hxl
          · rw [hu] at hnone; cases hnone
      · intro hall
        simp only [updateFirst, h, Bool.false_eq_true, if_false]
        rw [ih.mpr (fun x hx => hall x (List.mem_cons_of_mem a hx))]

/-- The first-match replacement on a decomposed list whose head section does
not match rewrites exactly the first matching element. -/
theorem updateFirst_append {hit : α → Bool} {g : α → α} {old : α}
    (hold : hit old = true) :
    ∀ (p : List α), (∀ x ∈ p, hit x = false) → ∀ (q : List α),
      updateFirst hit g (p ++ old :: q) = some (g old, p ++ g old :: q) := by
  intro p
  induction p with
  | nil => intro _ q; simp [updateFirst, hold]
  | cons a p ih =>
    intro hp q
    have ha : hit a = false := hp a (List.mem_cons_self a p)
    simp only [List.cons_append, updateFirst, ha, Bool.false_eq_true, if_false,
      List.append_eq]
    rw [ih (fun x hx => hp x (List.mem_cons_of_mem a hx)) q]

/-! ## Claim C1 -/

/-- C1 counterexample: the claim says corrupt or unreadable storage makes the
read operation signal a StorageError rather than return a value; in both
variants readData catches the failure and returns the empty collection, the
very behavior the spec for the loadAll contract rules out. -/
theorem readData_corrupt_counterexample :
    readDataServer StorageState.corrupt = ([] : List Animal)
      ∧ readDataPart StorageState.corrupt = ([] : List AnimalP)
      ∧ loadAllSpec (StorageState.corrupt : StorageState (List Animal))
          = Except.error StorageError.unreadable
      ∧ loadAllSpec (StorageState.corrupt : StorageState (List Animal))
          ≠ Except.ok (readDataServer StorageState.corrupt) :=
  ⟨rfl, rfl, rfl, by simp [loadAllSpec, readDataServer]⟩

/-- C1 amended: the read operation returns the records of readable storage,
and an empty sequence both when no persisted state exists yet and when the
persisted state is unreadable or corrupt; the failure is logged and swallowed,
never signalled to the caller. -/
theorem readData_total_amended :
    readDataServer StorageState.missing = []
      ∧ readDataPart StorageState.missing = []
      ∧ readDataServer StorageState.corrupt = []
      ∧ readDataPart StorageState.corrupt = []
      ∧ (∀ rs : List Animal, readDataServer (StorageState.valid rs) = rs)
      ∧ (∀ rs : List AnimalP, readDataPart (StorageState.valid rs) = rs) :=
  ⟨rfl, rfl, rfl, rfl, fun _ => rfl, fun _ => rfl⟩

/-! ## Claim C2 -/

/-- C2 counterexample: the part_000 create handler stores no lastUpdated field
at all, so the created record violates the claimed equality of creation and
last-update timestamps. -/
theorem create_timestamps_counterexample :
    (postPart goodBody none "p9" 5 []).1
        = PostResp.created (mkAnimalPart goodBody none "p9" 5)
      ∧ (mkAnimalPart goodBody none "p9" 5).dateReported = 5
      ∧ (mkAnimalPart goodBody none "p9" 5).lastUpdated = none
      ∧ (mkAnimalPart goodBody none "p9" 5).lastUpdated
          ≠ some ((mkAnimalPart goodBody none "p9" 5).dateReported) :=
  ⟨rfl, rfl, rfl, by simp [mkAnimalPart]⟩

/-- C2 amended: for every valid creation request the returned record has the
server-generated fresh id, which is nonempty and distinct from every
previously issued id, and any client-supplied id is ignored; in the server.js
variant the creation timestamp equals the last-update timestamp, while the
part_000 variant leaves lastUpdated unset at creation. -/
theorem create_id_and_timestamps (b : Body) (file : Option String)
    (freshId : String) (now : Nat) (s1 : List Animal) (s2 : List AnimalP)
    (hS : validateServer b = []) (hP : validatePart b = [])
    (hid : freshId ≠ "") (h1 : ∀ x ∈ s1, x.id ≠ freshId)
    (h2 : ∀ x ∈ s2, x.id ≠ freshId) :
    (∀ r, (postServer b file freshId now s1).1 = PostResp.created r →
        r.id = freshId ∧ r.id ≠ "" ∧ (∀ x ∈ s1, x.id ≠ r.id)
          ∧ r.dateReported = now ∧ r.lastUpdated = some r.dateReported)
      ∧ (∀ r, (postPart b file freshId now s2).1 = PostResp.created r →
        r.id = freshId ∧ r.id ≠ "" ∧ (∀ x ∈ s2, x.id ≠ r.id)
          ∧ r.dateReported = now ∧ r.lastUpdated = none)
      ∧ (∀ v, postServer { b with id := v } file freshId now s1
          = postServer b file freshId now s1)
      ∧ (∀ v, postPart { b with id := v } file freshId now s2
          = postPart b file freshId now s2)
      ∧ (postServer b file freshId now s1).1
          = PostResp.created (mkAnimalServer b file freshId now)
      ∧ (postPart b file freshId now s2).1
          = PostResp.created (mkAnimalPart b file freshId now) := by
  refine ⟨?_, ?_, fun v => rfl, fun v => rfl, ?_, ?_⟩
  · intro r hr
    simp only [postServer, hS, List.isEmpty_nil, if_true] at hr
    cases hr
    exact ⟨rfl, hid, h1, rfl, rfl⟩
  · intro r hr
    simp only [postPart, hP, List.isEmpty_nil, if_true] at hr
    cases hr
    exact ⟨rfl, hid, h2, rfl, rfl⟩
  · simp [postServer, hS]
  · simp [postPart, hP]

/-- C2 witness: the amended theorem applied to a concrete valid body, a fresh
id and a one-record store. -/
theorem create_id_and_timestamps_witness :
    (mkAnimalServer goodBody none "n1" 7).id = "n1"
      ∧ (mkAnimalServer goodBody none "n1" 7).id ≠ ""
      ∧ (∀ x ∈ [animalA], x.id ≠ (mkAnimalServer goodBody none "n1" 7).id)
      ∧ (mkAnimalServer goodBody none "n1" 7).dateReported = 7
      ∧ (mkAnimalServer goodBody none "n1" 7).lastUpdated
          = some ((mkAnimalServer goodBody none "n1" 7).dateReported) :=
  (create_id_and_timestamps goodBody none "n1" 7 [animalA] [] rfl rfl
      (by simp) (by intro x hx; simp at hx; subst hx; simp [animalA])
      (by intro x hx; simp at hx)).1
    (mkAnimalServer goodBody none "n1" 7) rfl

/-! ## Claim C3 -/

/-- C3: in both variants the listing filter is the conjunction of the
independently-optional predicates for type equality, status equality and
case-insensitive location containment, and with no predicate present it is the
identity, returning the input unchanged in the same order. -/
theorem filter_conjunction_identity (t s l : Option String)
    (as : List Animal) (asP : List AnimalP) :
    applyFiltersServer none none none as = as
      ∧ applyFiltersPart none none none none asP = asP
      ∧ applyFiltersServer t s l as
          = as.filter (fun a => passType t a && passStatus s a && passLoc l a)
      ∧ applyFiltersPart t s l none asP
          = asP.filter (fun a => passTypeP t a && passStatusP s a && passLocP l a) := by
  refine ⟨rfl, rfl, ?_, ?_⟩
  · simp only [applyFiltersServer]
    rw [stageFilter, stageFilter, stageFilter, filterChain, filterChain]
    simp only [passType, passStatus, passLoc, Bool.and_assoc]
  · have hnone : qActive none = false := rfl
    simp only [applyFiltersPart, hnone, Bool.false_eq_true, if_false]
    rw [stageFilter, stageFilter, stageFilter, filterChain, filterChain]
    simp only [passTypeP, passStatusP, passLocP, Bool.and_assoc]

/-! ## Claim C4 -/

/-- C4: a record survives the search stage exactly when at least one of
breed, color, description or location contains the term as a case-insensitive
substring. -/
theorem search_filter_iff (term : String) (asP : List AnimalP) (a : AnimalP)
    (h : term ≠ "") :
    (a ∈ applyFiltersPart none none none (some term) asP
      ↔ a ∈ asP ∧ (includesCI a.breed term = true ∨ includesCI a.color term = true
          ∨ includesCI a.description term = true
          ∨ includesCI a.location term = true)) := by
  have hq : (term != "") = true := by simpa using h
  simp only [applyFiltersPart, qActive, Bool.false_eq_true, if_false]
  rw [if_pos hq]
  simp only [Option.getD_some, List.mem_filter, searchPred, Bool.or_eq_true, or_assoc]

/-- C4 witness: with the term brown, the record whose color contains Brown is
kept and the record none of whose searched fields contains the term is
excluded. -/
theorem search_filter_iff_witness :
    ("brown" : String) ≠ ""
      ∧ animalPBrown ∈ applyFiltersPart none none none (some "brown")
          [animalPBrown, animalPBlack]
      ∧ animalPBlack ∉ applyFiltersPart none none none (some "brown")
          [animalPBrown, animalPBlack] := by
  refine ⟨by simp, ?_, ?_⟩
  · exact (search_filter_iff "brown" [animalPBrown, animalPBlack] animalPBrown
      (by simp)).mpr ⟨by simp, Or.inr (Or.inl rfl)⟩
  · intro hmem
    have hdis := ((search_filter_iff "brown" [animalPBrown, animalPBlack] animalPBlack
      (by simp)).mp hmem).2
    have hb : includesCI animalPBlack.breed "brown" = false := rfl
    have hc : includesCI animalPBlack.color "brown" = false := rfl
    have hd : includesCI animalPBlack.description "brown" = false := rfl
    have hl : includesCI animalPBlack.location "brown" = false := rfl
    rcases hdis with hx | hx | hx | hx <;> simp_all

/-! ## Claim C5 -/

/-- C5 counterexample: the server.js listing endpoint applies no sort; a store
holding an older record before a newer one is returned in storage order, which
is not descending by dateReported. -/
theorem listing_unsorted_counterexample :
    listServer none none none [animalA, animalB] = [animalA, animalB]
      ∧ ¬ ([animalA, animalB].Pairwise newerFirstS)
      ∧ sortByDateDescS [animalA, animalB] = [animalB, animalA] := by
  refine ⟨rfl, ?_, rfl⟩
  intro h
  have hab : newerFirstS animalA animalB :=
    (List.pairwise_cons.mp h).1 animalB (List.mem_cons_self _ _)
  have : (2 : Nat) ≤ 1 := hab
  omega

/-- C5 amended: the part_000 listing output is sorted descending by
dateReported, a permutation of the filtered collection, regardless of storage
order; the server.js listing applies no sort: its output is a sublist of the
store, keeping storage order, and is the store itself when no filter is
active. -/
theorem listing_sort_amended (t s l q : Option String)
    (as : List Animal) (asP : List AnimalP) :
    (listPart t s l q asP).Pairwise newerFirstP
      ∧ List.Perm (listPart t s l q asP) (applyFiltersPart t s l q asP)
      ∧ (listServer t s l as).Sublist as
      ∧ listServer none none none as = as := by
  refine ⟨?_, ?_, ?_, rfl⟩
  · exact List.sorted_insertionSort newerFirstP _
  · exact List.perm_insertionSort newerFirstP _
  · have hstage : ∀ (c : Bool) (p : Animal → Bool) (x : List Animal),
        (if c then x.filter p else x).Sublist x := by
      intro c p x
      cases c
      · simp
      · exact List.filter_sublist x
    exact ((hstage _ _ _).trans (hstage _ _ _)).trans (hstage _ _ _)

/-! ## Claim C6 -/

/-- C6: every write request whose body fails validation is answered 400
carrying the complete list of violated rules, and the persisted collection is
left unchanged; a body missing contactEmail in particular produces an error
naming contactEmail in both variants. -/
theorem invalid_write_rejected (b : Body) (file : Option String)
    (freshId targetId : String) (now : Nat)
    (s1 : List Animal) (s2 : List AnimalP)
    (hS : validateServer b ≠ []) (hP : validatePart b ≠ []) :
    postServer b file freshId now s1 = (.validationFailed (validateServer b), s1)
      ∧ putServer targetId b file now s1
          = (.validationFailed (validateServer b), s1)
      ∧ postPart b file freshId now s2 = (.validationFailed (validatePart b), s2)
      ∧ putPart targetId b file now s2 = (.validationFailed (validatePart b), s2)
      ∧ (PostResp.validationFailed (validateServer b) : PostResp Animal).statusCode = 400
      ∧ (PutResp.validationFailed (validatePart b) : PutResp AnimalP).statusCode = 400
      ∧ (b.contactEmail = none →
          (∃ e ∈ validateServer b, e.field = "contactEmail")
            ∧ (∃ e ∈ validatePart b, e.field = "contactEmail")) := by
  have hS' : (validateServer b).isEmpty = false := by
    cases hval : validateServer b
    · exact absurd hval hS
    · rfl
  have hP' : (validatePart b).isEmpty = false := by
    cases hval : validatePart b
    · exact absurd hval hP
    · rfl
  refine ⟨?_, ?_, ?_, ?_, rfl, rfl, ?_⟩
  · simp [postServer, hS']
  · simp [putServer, hS']
  · simp [postPart, hP']
  · simp [putPart, hP']
  · intro hmail
    constructor
    · refine ⟨⟨"contactEmail", "Valid email is required"⟩, ?_, rfl⟩
      simp [validateServer, hmail, checkOpt]
    · refine ⟨⟨"contactEmail", "Invalid email address"⟩, ?_, rfl⟩
      simp [validatePart, hmail, checkOpt]

/-- C6 witness: the empty body violates several rules in each variant; both
create handlers reject it with the full error lists, the store is unchanged,
and an error naming contactEmail is among them. -/
theorem invalid_write_rejected_witness :
    postServer emptyBody none "n1" 7 [animalA]
        = (.validationFailed (validateServer emptyBody), [animalA])
      ∧ postPart emptyBody none "n1" 7 [animalPBrown]
          = (.validationFailed (validatePart emptyBody), [animalPBrown])
      ∧ (∃ e ∈ validateServer emptyBody, e.field = "contactEmail")
      ∧ (∃ e ∈ validatePart emptyBody, e.field = "contactEmail")
      ∧ (validateServer emptyBody).length = 7
      ∧ (validatePart emptyBody).length = 7 := by
  have h := invalid_write_rejected emptyBody none "n1" "t1" 7 [animalA] [animalPBrown]
    (by intro hx; exact absurd (congrArg List.length hx) (by decide))
    (by intro hx; exact absurd (congrArg List.length hx) (by decide))
  exact ⟨h.1, h.2.2.1, (h.2.2.2.2.2.2 rfl).1, (h.2.2.2.2.2.2 rfl).2, rfl, rfl⟩

/-! ## Claim C7 -/

/-- C7: an update whose target id matches no record, with a body that passes
validation, is answered 404 and leaves the persisted collection, and hence its
record count, unchanged in both variants. -/
theorem put_missing_id_notFound (b : Body) (file : Option String)
    (targetId : String) (now : Nat) (s1 : List Animal) (s2 : List AnimalP)
    (hS : validateServer b = []) (hP : validatePart b = [])
    (h1 : ∀ x ∈ s1, x.id ≠ targetId) (h2 : ∀ x ∈ s2, x.id ≠ targetId) :
    putServer targetId b file now s1 = (.notFound, s1)
      ∧ putPart targetId b file now s2 = (.notFound, s2)
      ∧ (putServer targetId b file now s1).2.length = s1.length
      ∧ (putPart targetId b file now s2).2.length = s2.length
      ∧ (PutResp.notFound : PutResp Animal).statusCode = 404 := by
  have hu1 : updateFirst (fun a => a.id == targetId)
      (fun old => updateAnimalServer old b file now) s1 = none :=
    updateFirst_eq_none.mpr (fun x hx => beq_eq_false_iff_ne.mpr (h1 x hx))
  have hu2 : updateFirst (fun a => a.id == targetId)
      (fun old => updateAnimalPart old b file now) s2 = none :=
    updateFirst_eq_none.mpr (fun x hx => beq_eq_false_iff_ne.mpr (h2 x hx))
  have e1 : putServer targetId b file now s1 = (.notFound, s1) := by
    simp [putServer, hS, hu1]
  have e2 : putPart targetId b file now s2 = (.notFound, s2) := by
    simp [putPart, hP, hu2]
  exact ⟨e1, e2, by rw [e1], by rw [e2], rfl⟩

/-- C7 witness: updating the absent id zz on concrete one-record stores with a
valid body returns 404 and leaves both stores unchanged. -/
theorem put_missing_id_notFound_witness :
    putServer "zz" goodBody none 9 [animalA] = (.notFound, [animalA])
      ∧ putPart "zz" goodBody none 9 [animalPBrown] = (.notFound, [animalPBrown]) := by
  have h := put_missing_id_notFound goodBody none "zz" 9 [animalA] [animalPBrown]
    rfl rfl
    (by intro x hx; simp only [List.mem_singleton] at hx; subst hx; simp [animalA])
    (by intro x hx; simp only [List.mem_singleton] at hx; subst hx; simp [animalPBrown])
  exact ⟨h.1, h.2.1⟩

/-! ## Claim C8 -/

/-- C8: a successful update of an existing record keeps its id and
dateReported, refreshes lastUpdated to the handler time, replaces the image
reference only when an upload accompanied the request, and leaves every other
record of the collection unchanged, in both variants. The store is given as
the records before the first match, the matched record, and the records after
it; the result keeps both sections untouched. -/
theorem update_frame (b : Body) (file : Option String) (now : Nat)
    (targetId1 targetId2 : String)
    (p1 q1 : List Animal) (old1 : Animal) (p2 q2 : List AnimalP) (old2 : AnimalP)
    (hS : validateServer b = []) (hP : validatePart b = [])
    (hp1 : ∀ x ∈ p1, x.id ≠ targetId1) (hold1 : old1.id = targetId1)
    (hp2 : ∀ x ∈ p2, x.id ≠ targetId2) (hold2 : old2.id = targetId2) :
    putServer targetId1 b file now (p1 ++ old1 :: q1)
        = (.updated (updateAnimalServer old1 b file now),
          p1 ++ updateAnimalServer old1 b file now :: q1)
      ∧ putPart targetId2 b file now (p2 ++ old2 :: q2)
          = (.updated (updateAnimalPart old2 b file now),
            p2 ++ updateAnimalPart old2 b file now :: q2)
      ∧ (updateAnimalServer old1 b file now).id = old1.id
      ∧ (updateAnimalServer old1 b file now).dateReported = old1.dateReported
      ∧ (updateAnimalServer old1 b file now).lastUpdated = some now
      ∧ (updateAnimalServer old1 b file now).image
          = (match file with
            | some f => some ("/uploads/" ++ f)
            | none => old1.image)
      ∧ (updateAnimalPart old2 b file now).id = old2.id
      ∧ (updateAnimalPart old2 b file now).dateReported = old2.dateReported
      ∧ (updateAnimalPart old2 b file now).lastUpdated = some now
      ∧ (updateAnimalPart old2 b file now).photo
          = (match file with
            | some f => some ("/uploads/" ++ f)
            | none => old2.photo) := by
  have hu1 := @updateFirst_append Animal (fun a => a.id == targetId1)
    (fun old => updateAnimalServer old b file now) old1
    (beq_iff_eq.mpr hold1) p1
    (fun x hx => beq_eq_false_iff_ne.mpr (hp1 x hx)) q1
  have hu2 := @updateFirst_append AnimalP (fun a => a.id == targetId2)
    (fun old => updateAnimalPart old b file now) old2
    (beq_iff_eq.mpr hold2) p2
    (fun x hx => beq_eq_false_iff_ne.mpr (hp2 x hx)) q2
  refine ⟨?_, ?_, rfl, rfl, rfl, rfl, rfl, rfl, rfl, rfl⟩
  · simp [putServer, hS, hu1]
  · simp [putPart, hP, hu2]

/-- C8 witness: updating record a1 in a two-record store with a valid body and
no upload rewrites only that record, keeps its id, dateReported and image, and
refreshes lastUpdated. -/
theorem update_frame_witness :
    putServer "a1" goodBody none 9 [animalB, animalA]
        = (.updated (updateAnimalServer animalA goodBody none 9),
          [animalB, updateAnimalServer animalA goodBody none 9])
      ∧ (updateAnimalServer animalA goodBody none 9).id = animalA.id
      ∧ (updateAnimalServer animalA goodBody none 9).dateReported
          = animalA.dateReported
      ∧ (updateAnimalServer animalA goodBody none 9).lastUpdated = some 9
      ∧ (updateAnimalServer animalA goodBody none 9).image = animalA.image := by
  have h := update_frame goodBody none 9 "a1" "p1" [animalB] [] animalA
    [] [] animalPBrown rfl rfl
    (by intro x hx; simp only [List.mem_singleton] at hx; subst hx; simp [animalB, animalA])
    rfl (by intro x hx; simp at hx) rfl
  exact ⟨h.1, h.2.2.1, h.2.2.2.1, h.2.2.2.2.1, h.2.2.2.2.2.1⟩

/-! ## Claim C10 -/

/-- C10: in both update handlers validation of the body runs before the
existence check of the target id: an invalid body is answered 400 even when
the id matches no record, and 404 arises only for a body that passes
validation with an id matching no record. -/
theorem put_validation_before_existence (b : Body) (file : Option String)
    (targetId : String) (now : Nat) (s1 : List Animal) (s2 : List AnimalP)
    (hS : validateServer b ≠ []) (hP : validatePart b ≠ []) :
    (putServer targetId b file now s1).1
        = PutResp.validationFailed (validateServer b)
      ∧ (putPart targetId b file now s2).1
          = PutResp.validationFailed (validatePart b)
      ∧ ((putServer targetId b file now s1).1).statusCode = 400
      ∧ (∀ (b2 : Body) (f2 : Option String),
          (putServer targetId b2 f2 now s1).1 = PutResp.notFound →
            validateServer b2 = [] ∧ ∀ x ∈ s1, x.id ≠ targetId)
      ∧ (∀ (b2 : Body) (f2 : Option String),
          (putPart targetId b2 f2 now s2).1 = PutResp.notFound →
            validatePart b2 = [] ∧ ∀ x ∈ s2, x.id ≠ targetId) := by
  have hS' : (validateServer b).isEmpty = false := by
    cases hval : validateServer b
    · exact absurd hval hS
    · rfl
  have hP' : (validatePart b).isEmpty = false := by
    cases hval : validatePart b
    · exact absurd hval hP
    · rfl
  have e1 : (putServer targetId b file now s1).1
      = PutResp.validationFailed (validateServer b) := by
    simp [putServer, hS']
  refine ⟨e1, by simp [putPart, hP'], by rw [e1]; rfl, ?_, ?_⟩
  · intro b2 f2 hnf
    by_cases hv : validateServer b2 = []
    · refine ⟨hv, ?_⟩
      simp only [putServer, hv, List.isEmpty_nil, if_true] at hnf
      rcases hu : updateFirst (fun a => a.id == targetId)
          (fun old => updateAnimalServer old b2 f2 now) s1 with _ | pr
      · intro x hx
        exact beq_eq_false_iff_ne.mp (updateFirst_eq_none.mp hu x hx)
      · rw [hu] at hnf; cases hnf
    · exfalso
      have hv' : (validateServer b2).isEmpty = false := by
        cases hval : validateServer b2
        · exact absurd hval hv
        · rfl
      simp only [putServer, hv', Bool.false_eq_true, if_false] at hnf
      cases hnf
  · intro b2 f2 hnf
    by_cases hv : validatePart b2 = []
    · refine ⟨hv, ?_⟩
      simp only [putPart, hv, List.isEmpty_nil, if_true] at hnf
      rcases hu : updateFirst (fun a => a.id == targetId)
          (fun old => updateAnimalPart old b2 f2 now) s2 with _ | pr
      · intro x hx
        exact beq_eq_false_iff_ne.mp (updateFirst_eq_none.mp hu x hx)
      · rw [hu] at hnf; cases hnf
    · exfalso
      have hv' : (validatePart b2).isEmpty = false := by
        cases hval : validatePart b2
        · exact absurd hval hv
        · rfl
      simp only [putPart, hv', Bool.false_eq_true, if_false] at hnf
      cases hnf

/-- C10 witness: the empty body fails validation in both variants, so both
update handlers answer 400 on an empty store, where any id is nonexistent. -/
theorem put_validation_before_existence_witness :
    (putServer "zz" emptyBody none 7 ([] : List Animal)).1
        = PutResp.validationFailed (validateServer emptyBody)
      ∧ (putPart "zz" emptyBody none 7 ([] : List AnimalP)).1
          = PutResp.validationFailed (validatePart emptyBody)
      ∧ ((putServer "zz" emptyBody none 7 ([] : List Animal)).1).statusCode = 400 := by
  have h := put_validation_before_existence emptyBody none "zz" 7
    ([] : List Animal) ([] : List AnimalP)
    (by intro hx; exact absurd (congrArg List.length hx) (by decide))
    (by intro hx; exact absurd (congrArg List.length hx) (by decide))
  exact ⟨h.1, h.2.1, h.2.2.1⟩

/-! ## Claim C9 -/

/-- C9 counterexample: the server.js stats endpoint stores full records in
recentReports without projecting them to the reduced field set: two stores
that agree on every reduced field (id, type, location, dateReported, status)
and differ only in contactEmail produce different recentReports, while the
part_000 projection collapses exactly such a difference. -/
theorem stats_recent_unprojected_counterexample :
    (statsServer [animalA]).recentReports = [animalA]
      ∧ (statsServer [{ animalA with contactEmail := "z@z.c" }]).recentReports
          = [{ animalA with contactEmail := "z@z.c" }]
      ∧ (statsServer [animalA]).recentReports
          ≠ (statsServer [{ animalA with contactEmail := "z@z.c" }]).recentReports
      ∧ projectRecent { animalPBrown with contactEmail := "z@z.c" }
          = projectRecent animalPBrown := by
  refine ⟨rfl, rfl, ?_, rfl⟩
  intro h
  have h1 : animalA = { animalA with contactEmail := "z@z.c" } := by
    have h0 : (statsServer [animalA]).recentReports = [animalA] := rfl
    have h2 : (statsServer [{ animalA with contactEmail := "z@z.c" }]).recentReports
        = [{ animalA with contactEmail := "z@z.c" }] := rfl
    rw [h0, h2] at h
    exact List.head_eq_of_cons_eq h
  have h3 : animalA.contactEmail = "z@z.c" := congrArg Animal.contactEmail h1
  have h4 : animalA.contactEmail = "a@b.c" := rfl
  rw [h4] at h3
  exact absurd h3 (by decide)

/-- C9 amended: both stats endpoints return total equal to the record count,
per-enumeration-value counts for byType and byStatus that are zero for values
with no records, and recent equal to the top five records by descending
dateReported; the part_000 variant projects each recent entry to the reduced
field set while the server.js variant keeps full records; on the empty
collection both return zero totals, zero counts and empty recent. Being the
top five is captured by the final conjuncts: the recent records together with
a remainder form a permutation of the collection, and every recent record is
at least as recent as every record of the remainder. -/
theorem stats_amended (as : List Animal) (asP : List AnimalP) :
    (statsServer as).total = as.length
      ∧ (statsPart asP).total = asP.length
      ∧ ((∀ a ∈ as, a.type ≠ "dog") → (statsServer as).dogCount = 0)
      ∧ ((∀ a ∈ asP, a.status ≠ "adopted") → (statsPart asP).adoptedCount = 0)
      ∧ (statsServer as).dogCount = as.countP (fun a => a.type == "dog")
      ∧ (statsServer as).catCount = as.countP (fun a => a.type == "cat")
      ∧ (statsServer as).otherCount = as.countP (fun a => a.type == "other")
      ∧ (statsServer as).foundCount = as.countP (fun a => a.status == "found")
      ∧ (statsServer as).lostCount = as.countP (fun a => a.status == "lost")
      ∧ (statsServer as).rescuedCount = as.countP (fun a => a.status == "rescued")
      ∧ (statsPart asP).dogCount = asP.countP (fun a => a.type == "dog")
      ∧ (statsPart asP).catCount = asP.countP (fun a => a.type == "cat")
      ∧ (statsPart asP).otherCount = asP.countP (fun a => a.type == "other")
      ∧ (statsPart asP).foundCount = asP.countP (fun a => a.status == "found")
      ∧ (statsPart asP).lostCount = asP.countP (fun a => a.status == "lost")
      ∧ (statsPart asP).adoptedCount = asP.countP (fun a => a.status == "adopted")
      ∧ (statsPart asP).reunitedCount = asP.countP (fun a => a.status == "reunited")
      ∧ statsServer [] = ⟨0, 0, 0, 0, 0, 0, 0, []⟩
      ∧ statsPart [] = ⟨0, 0, 0, 0, 0, 0, 0, 0, []⟩
      ∧ ((statsServer as).recentReports).Pairwise newerFirstS
      ∧ ((statsPart asP).recentReports).Pairwise
          (fun x y => y.dateReported ≤ x.dateReported)
      ∧ (statsServer as).recentReports.length = min 5 as.length
      ∧ (statsPart asP).recentReports.length = min 5 asP.length
      ∧ (∀ x ∈ (statsServer as).recentReports, x ∈ as)
      ∧ (∀ x ∈ (statsPart asP).recentReports, ∃ a ∈ asP, x = projectRecent a)
      ∧ (∃ rest, List.Perm ((statsServer as).recentReports ++ rest) as
          ∧ ∀ x ∈ (statsServer as).recentReports, ∀ a ∈ rest,
              a.dateReported ≤ x.dateReported)
      ∧ (∃ chosen rest, (statsPart asP).recentReports = chosen.map projectRecent
          ∧ List.Perm (chosen ++ rest) asP
          ∧ ∀ x ∈ chosen, ∀ a ∈ rest, a.dateReported ≤ x.dateReported) := by
  refine ⟨rfl, rfl, ?_, ?_, ?_, ?_, ?_, ?_, ?_, ?_, ?_, ?_, ?_, ?_, ?_, ?_, ?_,
    rfl, rfl, ?_, ?_, ?_, ?_, ?_, ?_, ?_, ?_⟩
  · intro h
    simp only [statsServer]
    rw [List.filter_eq_nil_iff.mpr (fun a ha => by simpa using h a ha)]
    rfl
  · intro h
    simp only [statsPart]
    rw [List.filter_eq_nil_iff.mpr (fun a ha => by simpa using h a ha)]
    rfl
  · simp [statsServer, List.countP_eq_length_filter]
  · simp [statsServer, List.countP_eq_length_filter]
  · simp [statsServer, List.countP_eq_length_filter]
  · simp [statsServer, List.countP_eq_length_filter]
  · simp [statsServer, List.countP_eq_length_filter]
  · simp [statsServer, List.countP_eq_length_filter]
  · simp [statsPart, List.countP_eq_length_filter]
  · simp [statsPart, List.countP_eq_length_filter]
  · simp [statsPart, List.countP_eq_length_filter]
  · simp [statsPart, List.countP_eq_length_filter]
  · simp [statsPart, List.countP_eq_length_filter]
  · simp [statsPart, List.countP_eq_length_filter]
  · simp [statsPart, List.countP_eq_length_filter]
  · exact List.Pairwise.sublist (List.take_sublist 5 _)
      (List.sorted_insertionSort newerFirstS as)
  · simp only [statsPart]
    rw [List.pairwise_map]
    exact List.Pairwise.sublist (List.take_sublist 5 _)
      (List.sorted_insertionSort newerFirstP asP)
  · simp [statsServer, sortByDateDescS]
  · simp [statsPart, sortByDateDescP]
  · intro x hx
    exact (List.mem_insertionSort newerFirstS).mp (List.take_subset 5 _ hx)
  · intro x hx
    rcases List.mem_map.mp hx with ⟨a, ha, rfl⟩
    exact ⟨a, (List.mem_insertionSort newerFirstP).mp (List.take_subset 5 _ ha), rfl⟩
  · refine ⟨(sortByDateDescS as).drop 5, ?_, ?_⟩
    · have he : (statsServer as).recentReports ++ (sortByDateDescS as).drop 5
          = sortByDateDescS as := List.take_append_drop 5 _
      rw [he]
      exact List.perm_insertionSort newerFirstS as
    · have hp : (sortByDateDescS as).Pairwise newerFirstS :=
        List.sorted_insertionSort newerFirstS as
      rw [← List.take_append_drop 5 (sortByDateDescS as)] at hp
      exact fun x hx a ha => (List.pairwise_append.mp hp).2.2 x hx a ha
  · refine ⟨(sortByDateDescP asP).take 5, (sortByDateDescP asP).drop 5, rfl, ?_, ?_⟩
    · rw [List.take_append_drop 5 (sortByDateDescP asP)]
      exact List.perm_insertionSort newerFirstP asP
    · have hp : (sortByDateDescP asP).Pairwise newerFirstP :=
        List.sorted_insertionSort newerFirstP asP
      rw [← List.take_append_drop 5 (sortByDateDescP asP)] at hp
      exact fun x hx a ha => (List.pairwise_append.mp hp).2.2 x hx a ha

/-- C9 witness: the amended theorem applied to a two-record store with both
inner implications discharged on concrete collections. -/
theorem stats_amended_witness :
    (statsServer [animalA, animalB]).total = 2
      ∧ ((∀ a ∈ [animalPBrown, animalPBlack], a.status ≠ "adopted") →
          (statsPart [animalPBrown, animalPBlack]).adoptedCount = 0)
      ∧ (statsPart [animalPBrown, animalPBlack]).adoptedCount = 0
      ∧ (statsServer [animalA, animalB]).recentReports.length = 2 := by
  have h := stats_amended [animalA, animalB] [animalPBrown, animalPBlack]
  refine ⟨h.1.trans rfl, h.2.2.2.1, h.2.2.2.1 ?_, (h.2.2.2.2.2.2.2.2.2.2.2.2.2.2.2.2.2.2.2.2.2.2.1).trans rfl⟩
  intro a ha
  rcases List.mem_cons.mp ha with rfl | ha2
  · intro hc
    exact absurd hc (by decide)
  · rcases List.mem_cons.mp ha2 with rfl | ha3
    · intro hc
      exact absurd hc (by decide)
    · cases ha3

end StraySafe
